import Mathlib

/-!
Verification of the zenvalidate environment-variable validator.

This file shallowly embeds the parts of the repository needed to settle the
frozen claims:

* `validators.ts` (present in the sources): the option record, the
  environment-tier default resolution (`applyEnvironmentDefaults`), the
  option merger (`mergeOptions`), the boolean validator (`bool`) and the
  email validator (`email`).
* the configuration resolver and access-control proxy (`core.ts`), whose
  implementation file is not part of the sources — only its tests are.
  Those parts are modelled from the specification (and the exact
  user-visible messages from the tests) and are marked as such in their
  doc comments.

Schemas for string-valued validators are modelled by their parse functions:
a schema maps a raw input (`Option String`: the raw value, or `none` for an
absent variable) to `Option JsValue` (`some v` on success, `none` on a
validation failure).
-/

namespace Zenvalidate

/-- JavaScript runtime values, as far as the embedded code inspects them:
`undefined`, `null`, booleans, numbers, strings, and a collapsed
constructor for any other object value (the embedded validators never look
inside objects, they only reject them). -/
inductive JsValue where
  | undef : JsValue
  | null : JsValue
  | bool : Bool → JsValue
  | num : Int → JsValue
  | str : String → JsValue
  | obj : JsValue
deriving DecidableEq, Repr

/-- The nested client configuration from the `ClientConfig` type:
`{ expose: boolean, transform?, default?, devDefault? }`.  `expose` is a
required boolean; the remaining keys are optional (`none` models an absent
or `undefined` key). -/
structure ClientConfig where
  expose : Bool
  transform : Option (JsValue → JsValue) := none
  default : Option JsValue := none
  devDefault : Option JsValue := none

/-- The per-field `BaseOptions` record: tier defaults, documentation-only
keys, and the optional nested client configuration.  `none` models an
absent key and `some v` a present key with value `v`, so a present key
whose value is `undefined` (`some JsValue.undef`) stays distinguishable
from an absent key, exactly as the `"key" in options` checks in the source
require.  The source's documentation-only `example` key is embedded as
`exampleVal` because `example` is reserved in Lean. -/
structure BaseOptions where
  default : Option JsValue := none
  devDefault : Option JsValue := none
  testDefault : Option JsValue := none
  description : Option String := none
  exampleVal : Option String := none
  client : Option ClientConfig := none

/-- The outcome of layering a tier default onto a compiled schema: the
schema is left required, made optional without a fallback
(`schema.optional()`), or made optional with a concrete fallback value
(`schema.optional().default(value)`). -/
inductive DefaultResolution where
  | required : DefaultResolution
  | optionalNoFallback : DefaultResolution
  | optionalWithFallback : JsValue → DefaultResolution
deriving DecidableEq, Repr

/-- The branch body repeated in each arm of `applyEnvironmentDefaults`:
`if (value === undefined || value === null) return schema.optional();
return schema.optional().default(value)`. -/
def applySelectedDefault (value : JsValue) : DefaultResolution :=
  if value = JsValue.undef ∨ value = JsValue.null then
    DefaultResolution.optionalNoFallback
  else
    DefaultResolution.optionalWithFallback value

/-- `applyEnvironmentDefaults` from `validators.ts`.  `nodeEnv` stands for
`runtime.nodeEnv`, read once per call.  The priority chain checks key
existence (the `in` operator), not truthiness:
`nodeEnv === "test" && "testDefault" in options`, else
`nodeEnv === "development" && "devDefault" in options`, else
`"default" in options`, else the schema stays required. -/
def applyEnvironmentDefaults (nodeEnv : String) (options : Option BaseOptions) :
    DefaultResolution :=
  match options with
  | none => DefaultResolution.required
  | some opts =>
    if nodeEnv = "test" ∧ opts.testDefault.isSome then
      applySelectedDefault (opts.testDefault.getD JsValue.undef)
    else if nodeEnv = "development" ∧ opts.devDefault.isSome then
      applySelectedDefault (opts.devDefault.getD JsValue.undef)
    else if opts.default.isSome then
      applySelectedDefault (opts.default.getD JsValue.undef)
    else
      DefaultResolution.required

/-- Behaviour of the compiled schema on an absent raw input, after
`applyEnvironmentDefaults`: a required schema rejects absence (`none`), an
optional schema without a fallback accepts it and yields `undefined`, and
an optional schema with a fallback yields the fallback value. -/
def parseAbsent : DefaultResolution → Option JsValue
  | DefaultResolution.required => none
  | DefaultResolution.optionalNoFallback => some JsValue.undef
  | DefaultResolution.optionalWithFallback v => some v

/-- JavaScript object-spread / nullish-coalescing choice between two
optional keys: the left side wins when its key is present. -/
def jsOr {α : Type _} (o b : Option α) : Option α :=
  match o with
  | some v => some v
  | none => b

/-- `mergeOptions` from `validators.ts`: shallow spread
`{...base, ...overrides}` followed by a field-by-field deep merge of the
`client` sub-object whenever either input has a truthy `client`. -/
def mergeOptions (base overrides : Option BaseOptions) : Option BaseOptions :=
  match base, overrides with
  | none, none => none
  | none, some o => some o
  | some b, none => some b
  | some b, some o =>
    let merged : BaseOptions :=
      { default := jsOr o.default b.default
        devDefault := jsOr o.devDefault b.devDefault
        testDefault := jsOr o.testDefault b.testDefault
        description := jsOr o.description b.description
        exampleVal := jsOr o.exampleVal b.exampleVal
        client := jsOr o.client b.client }
    let merged :=
      if b.client.isSome || o.client.isSome then
        { merged with
          client := some
            { expose := (jsOr (o.client.map ClientConfig.expose)
                (b.client.map ClientConfig.expose)).getD false
              transform := jsOr (o.client.bind ClientConfig.transform)
                (b.client.bind ClientConfig.transform)
              default := jsOr (o.client.bind ClientConfig.default)
                (b.client.bind ClientConfig.default)
              devDefault := jsOr (o.client.bind ClientConfig.devDefault)
                (b.client.bind ClientConfig.devDefault) } }
      else merged
    some merged

/-- ASCII lower-casing of a string, modelling `val.toLowerCase()` and the
case folding of the non-Unicode-mode regex flag `/i`: for the pure-ASCII
tokens of the boolean validator both fold exactly the ASCII letters
`A`–`Z`, and a string containing non-ASCII letters matches no token either
way. -/
def asciiLower (s : String) : String :=
  ⟨s.data.map Char.toLower⟩

/-- The set matched by the case-insensitive regex
`/^(true|false|1|0|yes|no|on|off)$/i` in the `bool` validator, applied to
the lower-cased input. -/
def boolTokenLower (l : String) : Bool :=
  l = "true" || l = "false" || l = "1" || l = "0" ||
    l = "yes" || l = "no" || l = "on" || l = "off"

/-- The transform of the regex branch of the `bool` validator:
`["true", "1", "yes", "on"].includes(lower)`. -/
def truthyLower (l : String) : Bool :=
  l = "true" || l = "1" || l = "yes" || l = "on"

/-- The `bool` validator's union schema from `validators.ts`, tried in
source order: `z.boolean()`, the eight exact string literals with their
transforms, then the case-insensitive regex branch with its lower-casing
transform.  Every other input fails (`none`). -/
def boolParse (v : JsValue) : Option Bool :=
  match v with
  | JsValue.bool b => some b
  | JsValue.str s =>
    if s = "true" then some true
    else if s = "false" then some false
    else if s = "1" then some true
    else if s = "0" then some false
    else if s = "yes" then some true
    else if s = "no" then some false
    else if s = "on" then some true
    else if s = "off" then some false
    else if boolTokenLower (asciiLower s) then some (truthyLower (asciiLower s))
    else none
  | _ => none

/-- The `email` validator's schema choice from `validators.ts`: the schema
starts as `z.email()` (the external format collaborator, passed in here as
an abstract predicate `builtinEmail`), and when `options.regex` is given
the schema is replaced by `z.string().regex(options.regex)` — the custom
regex is likewise passed in as a predicate.  The value returned is the
acceptance of a present raw string input. -/
def emailAccepts (builtinEmail : String → Bool) (regex : Option (String → Bool))
    (s : String) : Bool :=
  match regex with
  | some re => re s
  | none => builtinEmail s

/-! ### The configuration resolver and the access-control proxy

The implementation file for the resolver and the proxy (`core.ts`) is not
among the sources — only its test suites are.  The definitions below are
therefore modelled from the specification (§4.4, §4.5, §7), with the exact
user-visible message strings taken from the test suites
(`core.test.ts`, `errors.test.ts`), which are part of the sources. -/

/-- Modelled from the spec: a compiled validation schema as the resolver
consumes it (`core.ts` is not in the sources).  Its parse function maps the
raw input — `some` raw string, or `none` for an absent variable — to the
validated value, or to `none` on a validation failure; `clientCfg` is the
client configuration carried by the schema's metadata record. -/
structure CompiledSchema where
  parse : Option String → Option JsValue
  clientCfg : Option ClientConfig := none

/-- Builds a `CompiledSchema` parse function from a base string validator
and the outcome of `applyEnvironmentDefaults`: a present raw value is run
through the base validator, and an absent one is handled by the resolved
default behaviour. -/
def schemaParse (base : String → Option JsValue) (dr : DefaultResolution) :
    Option String → Option JsValue
  | some raw => base raw
  | none => parseAbsent dr

/-- Modelled from the spec: an entry of the field specification handed to
the resolver (`core.ts` is not in the sources).  A value is either a
recognized compiled schema, or something else entirely (a plain string,
number, object, …) — the latter is a configuration-time error detected by
the resolver's duck-typed schema check. -/
inductive SpecEntry where
  | schema : CompiledSchema → SpecEntry
  | invalid : SpecEntry

/-- A per-field validation failure record: field path plus message. -/
structure Failure where
  field : String
  message : String
deriving DecidableEq, Repr

/-- Modelled from the spec: the field-level failure message for a declared
field that is not a recognized schema, §4.4 step 1:
`Invalid validator for "<FIELD>": must be a <schema> instance`, with the
schema library named as observed in the tests. -/
def invalidValidatorMessage (name : String) : String :=
  "Invalid validator for \"" ++ name ++ "\": must be a Zod schema instance"

/-- Modelled from the spec: the distinguishing message of a field whose raw
value fails its compiled schema (a missing required value is reported
through the same shape, §7). -/
def fieldFailureMessage (name : String) : String :=
  "Invalid value for \"" ++ name ++ "\""

/-- Looks up a raw value in the string-keyed input source. -/
def lookupRaw (env : List (String × String)) (k : String) : Option String :=
  (env.find? (fun p => p.1 = k)).map (fun p => p.2)

/-- Modelled from the spec: validation of a single declared field, §4.4
steps 1–2.  A non-schema entry yields the field-level
`invalidValidatorMessage` failure; a schema entry runs the raw value (or
its absence) through the compiled schema and yields either the validated
value or a field failure record. -/
def validateField (env : List (String × String)) (name : String)
    (entry : SpecEntry) : Except Failure JsValue :=
  match entry with
  | SpecEntry.invalid => Except.error ⟨name, invalidValidatorMessage name⟩
  | SpecEntry.schema s =>
    match s.parse (lookupRaw env name) with
    | some v => Except.ok v
    | none => Except.error ⟨name, fieldFailureMessage name⟩

/-- Modelled from the spec: the per-field validation loop of the resolver,
§4.4 step 2 — success values and failure records are collected
independently, in declaration order, with no short-circuit on a field
failure. -/
def resolveAll (specs : List (String × SpecEntry)) (env : List (String × String)) :
    List (String × JsValue) × List Failure :=
  match specs with
  | [] => ([], [])
  | (n, e) :: rest =>
    let tail := resolveAll rest env
    match validateField env n e with
    | Except.ok v => ((n, v) :: tail.1, tail.2)
    | Except.error f => (tail.1, f :: tail.2)

/-- The `onError` mode of the resolver: raise an aggregated error, invoke
the process-termination collaborator, or proceed with the successfully
validated fields only. -/
inductive OnErrorMode where
  | throw : OnErrorMode
  | exit : OnErrorMode
  | ret : OnErrorMode
deriving DecidableEq

/-- The `onClientAccessError` policy applied when a client context reads a
non-exposed field. -/
inductive ClientAccessMode where
  | throw : ClientAccessMode
  | warn : ClientAccessMode
  | ignore : ClientAccessMode
deriving DecidableEq

/-- Modelled from the spec: the per-call resolver options that the claims
exercise.  The defaults reproduce the behaviour shown in the tests: strict
access on, a non-throwing (`warn`) client-access policy, and no configured
prefixes. -/
structure ZenvOptions where
  onError : OnErrorMode := OnErrorMode.exit
  serverOnlyPrefixes : List String := []
  clientSafePrefixes : List String := []
  strict : Bool := true
  onClientAccessError : ClientAccessMode := ClientAccessMode.warn

/-- The aggregated configuration error: carries the full ordered list of
per-field failures.  The message is the one observed in the tests
(`Environment validation failed`). -/
structure ZenvError where
  message : String
  failures : List Failure
deriving DecidableEq, Repr

/-- Modelled from the spec: the resolved configuration handed to the
access-control proxy — the validated value map in declaration order, the
per-field client metadata, the call's options, and the deployment tier. -/
structure Config where
  values : List (String × JsValue)
  meta : List (String × Option ClientConfig)
  opts : ZenvOptions
  nodeEnv : String

/-- Modelled from the spec: the outcome of one resolution call, §4.4 step 3
— a wrapped configuration, an aggregated thrown error (`onError: "throw"`),
or an invocation of the process-termination collaborator with the failure
list (`onError: "exit"`). -/
inductive ZenvResult where
  | success : Config → ZenvResult
  | thrown : ZenvError → ZenvResult
  | exited : List Failure → ZenvResult

/-- Modelled from the spec: the whole resolver call, §4.4 — validate every
field, aggregate failures, then decide the outcome from the `onError`
mode; under `return` the successfully validated fields alone are wrapped. -/
def zenvResolve (specs : List (String × SpecEntry)) (env : List (String × String))
    (opts : ZenvOptions) (nodeEnv : String) : ZenvResult :=
  let outcome := resolveAll specs env
  let meta := specs.map (fun p =>
    (p.1, match p.2 with
      | SpecEntry.schema s => s.clientCfg
      | SpecEntry.invalid => none))
  if outcome.2 = [] then
    ZenvResult.success ⟨outcome.1, meta, opts, nodeEnv⟩
  else
    match opts.onError with
    | OnErrorMode.throw => ZenvResult.thrown ⟨"Environment validation failed", outcome.2⟩
    | OnErrorMode.exit => ZenvResult.exited outcome.2
    | OnErrorMode.ret => ZenvResult.success ⟨outcome.1, meta, opts, nodeEnv⟩

/-- `name.startsWith(p)` over the underlying character lists. -/
def strStartsWith (s p : String) : Bool :=
  List.isPrefixOf p.data s.data

/-- Modelled from the spec: the resolved client/server exposure decision
for a field, §4.4 special handling — a name matching a configured
`serverOnlyPrefixes` entry is forced server-only regardless of the field's
client configuration; a name matching `clientSafePrefixes` is auto-exposed
unless the field explicitly sets `expose: false`; otherwise only an
explicit `expose: true` exposes the field. -/
def isExposed (opts : ZenvOptions) (name : String) (cc : Option ClientConfig) : Bool :=
  if opts.serverOnlyPrefixes.any (fun p => strStartsWith name p) then
    false
  else if opts.clientSafePrefixes.any (fun p => strStartsWith name p) then
    match cc with
    | some c => c.expose
    | none => true
  else
    match cc with
    | some c => c.expose
    | none => false

/-- The result of one proxy property read: a value (possibly `undefined`)
or a raised access error with its message. -/
inductive ReadResult where
  | val : JsValue → ReadResult
  | err : String → ReadResult
deriving DecidableEq, Repr

/-- Modelled from the spec: the client view of an exposed field's value,
§4.5 — client `default`/`devDefault` replace an absent server value, and
the field's `client.transform` is applied when present. -/
def clientViewValue (nodeEnv : String) (cc : Option ClientConfig) (v : JsValue) : JsValue :=
  match cc with
  | none => v
  | some c =>
    let v1 :=
      if v = JsValue.undef then
        if nodeEnv = "development" ∧ c.devDefault.isSome then c.devDefault.getD v
        else if c.default.isSome then c.default.getD v
        else v
      else v
    match c.transform with
    | some f => f v1
    | none => v1

/-- Looks up a field's client configuration in the resolved metadata. -/
def lookupMeta (meta : List (String × Option ClientConfig)) (k : String) :
    Option (Option ClientConfig) :=
  (meta.find? (fun p => p.1 = k)).map (fun p => p.2)

/-- Looks up a field's validated value in the resolved value map. -/
def lookupVal (values : List (String × JsValue)) (k : String) : Option JsValue :=
  (values.find? (fun p => p.1 = k)).map (fun p => p.2)

/-- Modelled from the spec: a property read through the access-control
proxy, §4.5 — derived tier flags are computed, an undeclared key is a
strict-mode "not found" error (or `undefined` when strict is off), a client
read of a non-exposed field follows the `onClientAccessError` policy, a
client read of an exposed field sees the client-transformed value, and a
server read sees the server-resolved value unconditionally.  The error
messages are the ones observed in the tests. -/
def proxyGet (cfg : Config) (isClient : Bool) (key : String) : ReadResult :=
  if key = "isDevelopment" ∨ key = "isDev" then
    ReadResult.val (JsValue.bool (cfg.nodeEnv = "development"))
  else if key = "isProduction" ∨ key = "isProd" then
    ReadResult.val (JsValue.bool (cfg.nodeEnv = "production"))
  else if key = "isTest" then
    ReadResult.val (JsValue.bool (cfg.nodeEnv = "test"))
  else
    match lookupVal cfg.values key with
    | none =>
      if cfg.opts.strict then
        ReadResult.err ("[zenv] Environment variable not found: " ++ key)
      else
        ReadResult.val JsValue.undef
    | some v =>
      if isClient then
        let cc := (lookupMeta cfg.meta key).getD none
        if isExposed cfg.opts key cc then
          ReadResult.val (clientViewValue cfg.nodeEnv cc v)
        else
          match cfg.opts.onClientAccessError with
          | ClientAccessMode.throw =>
            ReadResult.err ("[zenv] Not exposed to the client: " ++ key)
          | ClientAccessMode.warn => ReadResult.val JsValue.undef
          | ClientAccessMode.ignore => ReadResult.val JsValue.undef
      else
        ReadResult.val v

/-- Modelled from the spec: a property assignment through the proxy, §4.5 —
every assignment attempt, to any key whatsoever, fails with the type error
observed in the tests, naming the field; no configuration object is ever
produced, so no assignment can change a stored value or add a key. -/
def proxySet (_cfg : Config) (key : String) (_v : JsValue) : Except String Config :=
  Except.error ("[zenv] Attempt to mutate environment value: " ++ key)

/-- Modelled from the spec: a property deletion through the proxy, §4.5 —
the deletion reports success (`true`, no throw) but leaves the resolved
configuration untouched, so subsequent reads are unaffected. -/
def proxyDelete (cfg : Config) (_key : String) : Bool × Config :=
  (true, cfg)

/-! ## Theorems -/

/-- A selected default never leaves the schema required: both arms of the
branch body make the schema optional. -/
theorem applySelectedDefault_ne_required (v : JsValue) :
    applySelectedDefault v ≠ DefaultResolution.required := by
  unfold applySelectedDefault
  split <;> simp

/-- C1: for a field whose options declare all of `default`, `devDefault`
and `testDefault`, the default applied when the raw input is absent is
selected by key existence in the first matching branch of the priority
chain: `testDefault` under tier `test`, `devDefault` under tier
`development`, and `default` under any other tier value (unrecognized tier
strings included); when the selected value is not nullish, an absent raw
input resolves to exactly that value. -/
theorem tier_default_priority (tier : String) (opts : BaseOptions)
    (vt vd v0 : JsValue)
    (ht : opts.testDefault = some vt) (hd : opts.devDefault = some vd)
    (h0 : opts.default = some v0) :
    applyEnvironmentDefaults "test" (some opts) = applySelectedDefault vt ∧
    applyEnvironmentDefaults "development" (some opts) = applySelectedDefault vd ∧
    (tier ≠ "test" → tier ≠ "development" →
      applyEnvironmentDefaults tier (some opts) = applySelectedDefault v0) ∧
    (¬(vt = JsValue.undef ∨ vt = JsValue.null) →
      parseAbsent (applyEnvironmentDefaults "test" (some opts)) = some vt) ∧
    (¬(vd = JsValue.undef ∨ vd = JsValue.null) →
      parseAbsent (applyEnvironmentDefaults "development" (some opts)) = some vd) ∧
    (tier ≠ "test" → tier ≠ "development" →
      ¬(v0 = JsValue.undef ∨ v0 = JsValue.null) →
      parseAbsent (applyEnvironmentDefaults tier (some opts)) = some v0) := by
  refine ⟨?_, ?_, ?_, ?_, ?_, ?_⟩
  · simp [applyEnvironmentDefaults, ht]
  · simp [applyEnvironmentDefaults, ht, hd]
  · intro hnt hnd
    simp [applyEnvironmentDefaults, ht, hd, h0, hnt, hnd]
  · intro hv
    simp [applyEnvironmentDefaults, ht, applySelectedDefault, hv, parseAbsent]
  · intro hv
    simp [applyEnvironmentDefaults, ht, hd, applySelectedDefault, hv, parseAbsent]
  · intro hnt hnd hv
    simp [applyEnvironmentDefaults, ht, hd, h0, hnt, hnd, applySelectedDefault, hv,
      parseAbsent]

/-- Witness for C1: `{default: "info", devDefault: "debug", testDefault:
"error"}` resolves to `"error"` under tier `test`, to `"debug"` under tier
`development`, and to `"info"` under the unrecognized tier `"staging"`. -/
theorem tier_default_priority_witness :
    parseAbsent (applyEnvironmentDefaults "test"
        (some ⟨some (JsValue.str "info"), some (JsValue.str "debug"),
          some (JsValue.str "error"), none, none, none⟩)) =
      some (JsValue.str "error") ∧
    parseAbsent (applyEnvironmentDefaults "development"
        (some ⟨some (JsValue.str "info"), some (JsValue.str "debug"),
          some (JsValue.str "error"), none, none, none⟩)) =
      some (JsValue.str "debug") ∧
    parseAbsent (applyEnvironmentDefaults "staging"
        (some ⟨some (JsValue.str "info"), some (JsValue.str "debug"),
          some (JsValue.str "error"), none, none, none⟩)) =
      some (JsValue.str "info") := by
  have h := tier_default_priority "staging"
    ⟨some (JsValue.str "info"), some (JsValue.str "debug"),
      some (JsValue.str "error"), none, none, none⟩
    (JsValue.str "error") (JsValue.str "debug") (JsValue.str "info") rfl rfl rfl
  exact ⟨h.2.2.2.1 (by decide), h.2.2.2.2.1 (by decide),
    h.2.2.2.2.2 (by decide) (by decide) (by decide)⟩

/-- C4: when the tier default selected by the priority chain has the value
`null` or `undefined` (key present, value nullish), the compiled schema
becomes optional without any fallback, so absence of the raw input is
accepted and resolves to `undefined`; moreover any field whose options
declare the `default` key at all is never left required, under any tier. -/
theorem nullish_default_optional (tier : String) (opts : BaseOptions) (v : JsValue)
    (hsel :
      (tier = "test" ∧ opts.testDefault = some v) ∨
      (¬(tier = "test" ∧ opts.testDefault.isSome) ∧
        tier = "development" ∧ opts.devDefault = some v) ∨
      (¬(tier = "test" ∧ opts.testDefault.isSome) ∧
        ¬(tier = "development" ∧ opts.devDefault.isSome) ∧
        opts.default = some v))
    (hv : v = JsValue.undef ∨ v = JsValue.null) :
    applyEnvironmentDefaults tier (some opts) = DefaultResolution.optionalNoFallback ∧
    parseAbsent (applyEnvironmentDefaults tier (some opts)) = some JsValue.undef ∧
    (∀ t (o : BaseOptions), o.default.isSome →
      applyEnvironmentDefaults t (some o) ≠ DefaultResolution.required) := by
  have hnever : ∀ t (o : BaseOptions), o.default.isSome →
      applyEnvironmentDefaults t (some o) ≠ DefaultResolution.required := by
    intro t o hdef
    simp only [applyEnvironmentDefaults]
    split_ifs <;> simp_all [applySelectedDefault_ne_required]
  have hmain : applyEnvironmentDefaults tier (some opts) =
      DefaultResolution.optionalNoFallback := by
    rcases hsel with ⟨ht, hval⟩ | ⟨hnt, hd, hval⟩ | ⟨hnt, hnd, hval⟩
    · simp [applyEnvironmentDefaults, ht, hval, applySelectedDefault, hv]
    · simp [applyEnvironmentDefaults, hnt, hd, hval, applySelectedDefault, hv]
    · simp [applyEnvironmentDefaults, hnt, hnd, hval, applySelectedDefault, hv]
  exact ⟨hmain, by rw [hmain]; rfl, hnever⟩

/-- Witness for C4: a field declaring only `{default: undefined}` is
optional under the unrecognized tier `"production"`-like chain and resolves
to `undefined` when the raw input is absent. -/
theorem nullish_default_optional_witness :
    applyEnvironmentDefaults "production"
        (some { default := some JsValue.undef }) =
      DefaultResolution.optionalNoFallback ∧
    parseAbsent (applyEnvironmentDefaults "production"
        (some { default := some JsValue.undef })) = some JsValue.undef := by
  have h := nullish_default_optional "production"
    { default := some JsValue.undef } JsValue.undef
    (Or.inr (Or.inr ⟨by decide, by decide, rfl⟩)) (Or.inl rfl)
  exact ⟨h.1, h.2.1⟩

/-- The lower-cased falsy token set of the boolean mapping:
`{false, 0, no, off}` — the complement of `truthyLower` within the tokens
the regex accepts. -/
def falsyLower (l : String) : Bool :=
  l = "false" || l = "0" || l = "no" || l = "off"

/-- The regex token set is the union of the truthy and falsy token sets. -/
theorem boolTokenLower_eq_or (l : String) :
    boolTokenLower l = (truthyLower l || falsyLower l) := by
  simp only [boolTokenLower, truthyLower, falsyLower]
  rw [Bool.eq_iff_iff]
  simp only [Bool.or_eq_true, decide_eq_true_eq]
  tauto

/-- No token is both truthy and falsy. -/
theorem not_truthy_of_falsy (l : String) (h : falsyLower l = true) :
    truthyLower l = false := by
  simp only [falsyLower, Bool.or_eq_true, decide_eq_true_eq] at h
  rcases h with ((h | h) | h) | h <;> subst h <;> decide

/-- The `bool` validator on string inputs is exactly the case-insensitive
closed token mapping: truthy tokens parse to `true`, falsy tokens to
`false`, and everything else fails. -/
theorem boolParse_str_eq (s : String) :
    boolParse (JsValue.str s) =
      (if truthyLower (asciiLower s) then some true
       else if falsyLower (asciiLower s) then some false
       else none) := by
  by_cases h1 : s = "true"
  · subst h1; decide
  by_cases h2 : s = "false"
  · subst h2; decide
  by_cases h3 : s = "1"
  · subst h3; decide
  by_cases h4 : s = "0"
  · subst h4; decide
  by_cases h5 : s = "yes"
  · subst h5; decide
  by_cases h6 : s = "no"
  · subst h6; decide
  by_cases h7 : s = "on"
  · subst h7; decide
  by_cases h8 : s = "off"
  · subst h8; decide
  simp only [boolParse, if_neg h1, if_neg h2, if_neg h3, if_neg h4, if_neg h5,
    if_neg h6, if_neg h7, if_neg h8, boolTokenLower_eq_or]
  cases ht : truthyLower (asciiLower s) <;> cases hf : falsyLower (asciiLower s) <;> simp

/-- C5: the boolean validator is a closed mapping, not a coercion — the
case-insensitive tokens `true`/`1`/`yes`/`on` parse to `true`, the
case-insensitive tokens `false`/`0`/`no`/`off` parse to `false`, native
booleans pass through unchanged, and every other input — any other string
(including `"2"` and `""`), any number (including `1` and `0`), objects,
`null` and `undefined` — fails validation rather than being coerced. -/
theorem bool_closed_mapping :
    (∀ b, boolParse (JsValue.bool b) = some b) ∧
    (∀ s, truthyLower (asciiLower s) = true → boolParse (JsValue.str s) = some true) ∧
    (∀ s, falsyLower (asciiLower s) = true → boolParse (JsValue.str s) = some false) ∧
    (∀ s, truthyLower (asciiLower s) = false → falsyLower (asciiLower s) = false →
      boolParse (JsValue.str s) = none) ∧
    boolParse (JsValue.str "2") = none ∧
    boolParse (JsValue.str "") = none ∧
    (∀ n, boolParse (JsValue.num n) = none) ∧
    boolParse JsValue.obj = none ∧
    boolParse JsValue.null = none ∧
    boolParse JsValue.undef = none := by
  refine ⟨fun b => rfl, ?_, ?_, ?_, by decide, by decide, fun n => rfl, rfl, rfl, rfl⟩
  · intro s ht
    rw [boolParse_str_eq, if_pos ht]
  · intro s hf
    rw [boolParse_str_eq, if_neg (by simp [not_truthy_of_falsy (asciiLower s) hf]),
      if_pos hf]
  · intro s ht hf
    rw [boolParse_str_eq, if_neg (by simp [ht]), if_neg (by simp [hf])]

/-- Witness for C5: concrete parses — `"TRUE"` (case-insensitive truthy)
parses to `true`, `"Off"` to `false`, and `"2"` and `"maybe"` fail. -/
theorem bool_closed_mapping_witness :
    boolParse (JsValue.str "TRUE") = some true ∧
    boolParse (JsValue.str "Off") = some false ∧
    boolParse (JsValue.str "2") = none ∧
    boolParse (JsValue.str "maybe") = none :=
  ⟨bool_closed_mapping.2.1 "TRUE" (by decide),
   bool_closed_mapping.2.2.1 "Off" (by decide),
   bool_closed_mapping.2.2.2.2.1,
   bool_closed_mapping.2.2.2.1 "maybe" (by decide) (by decide)⟩

/-- C8: the option merger returns `undefined` when neither input exists,
returns the single present input unchanged, and when both are present
shallow-merges the top-level keys with overrides winning, then deep-merges
the `client` sub-object field by field, preferring `overrides.client`, then
`base.client`, with `expose` falling back to `false` and the other client
fields to `undefined`. -/
theorem mergeOptions_contract :
    mergeOptions none none = none ∧
    (∀ o, mergeOptions none (some o) = some o) ∧
    (∀ b, mergeOptions (some b) none = some b) ∧
    (∀ b o m, mergeOptions (some b) (some o) = some m →
      m.default = jsOr o.default b.default ∧
      m.devDefault = jsOr o.devDefault b.devDefault ∧
      m.testDefault = jsOr o.testDefault b.testDefault ∧
      m.description = jsOr o.description b.description ∧
      m.exampleVal = jsOr o.exampleVal b.exampleVal ∧
      (b.client = none → o.client = none → m.client = none) ∧
      ((b.client.isSome = true ∨ o.client.isSome = true) →
        m.client = some
          { expose := (jsOr (o.client.map ClientConfig.expose)
              (b.client.map ClientConfig.expose)).getD false
            transform := jsOr (o.client.bind ClientConfig.transform)
              (b.client.bind ClientConfig.transform)
            default := jsOr (o.client.bind ClientConfig.default)
              (b.client.bind ClientConfig.default)
            devDefault := jsOr (o.client.bind ClientConfig.devDefault)
              (b.client.bind ClientConfig.devDefault) })) := by
  refine ⟨rfl, fun o => rfl, fun b => rfl, ?_⟩
  intro b o m h
  simp only [mergeOptions] at h
  by_cases hc : b.client.isSome || o.client.isSome
  · rw [if_pos hc] at h
    injection h with h
    subst h
    refine ⟨rfl, rfl, rfl, rfl, rfl, ?_, fun _ => rfl⟩
    intro hb ho
    simp [hb, ho] at hc
  · rw [if_neg hc] at h
    injection h with h
    subst h
    simp only [Bool.or_eq_true, not_or, Bool.not_eq_true] at hc
    have hb : b.client = none := by
      cases h2 : b.client
      · rfl
      · rw [h2] at hc; simp at hc
    have ho : o.client = none := by
      cases h2 : o.client
      · rfl
      · rw [h2] at hc; simp at hc
    refine ⟨rfl, rfl, rfl, rfl, rfl, fun _ _ => ?_, fun hsome => ?_⟩
    · show jsOr o.client b.client = none
      simp [jsOr, hb, ho]
    · rcases hsome with hs | hs <;> simp [hb, ho] at hs

/-- Witness for C8: a concrete merge — the override's `devDefault` and
`client.expose` win, the base's `default` and `client.default` survive, and
the merged client record is fully normalized. -/
theorem mergeOptions_contract_witness :
    mergeOptions
        (some { default := some (JsValue.str "base"),
                client := some { expose := false,
                                 default := some (JsValue.str "cb") } })
        (some { devDefault := some (JsValue.str "over"),
                client := some { expose := true } }) =
      some { default := some (JsValue.str "base"),
             devDefault := some (JsValue.str "over"),
             client := some { expose := true, transform := none,
                              default := some (JsValue.str "cb"),
                              devDefault := none } } ∧
    BaseOptions.client
        { default := some (JsValue.str "base"),
          devDefault := some (JsValue.str "over"),
          client := some { expose := true, transform := none,
                           default := some (JsValue.str "cb"),
                           devDefault := none } } =
      some { expose := true, transform := none,
             default := some (JsValue.str "cb"), devDefault := none } :=
  ⟨rfl,
   (mergeOptions_contract.2.2.2
      { default := some (JsValue.str "base"),
        client := some { expose := false, default := some (JsValue.str "cb") } }
      { devDefault := some (JsValue.str "over"),
        client := some { expose := true } }
      { default := some (JsValue.str "base"),
        devDefault := some (JsValue.str "over"),
        client := some { expose := true, transform := none,
                         default := some (JsValue.str "cb"),
                         devDefault := none } }
      rfl).2.2.2.2.2.2 (Or.inl rfl)⟩

/-- C10: when the email validator is given a custom `regex` option, the
resulting schema validates inputs against that regex instead of the
built-in email format check, not in addition to it — an input accepted by
the custom regex passes validation even when the built-in email check
rejects it; without the option, the schema is exactly the built-in check. -/
theorem email_custom_regex_replaces (builtinEmail re : String → Bool) (s : String)
    (hre : re s = true) :
    emailAccepts builtinEmail (some re) s = true ∧
    (builtinEmail s = false → emailAccepts builtinEmail (some re) s = true) ∧
    (∀ t, emailAccepts builtinEmail none t = builtinEmail t) :=
  ⟨hre, fun _ => hre, fun _ => rfl⟩

/-- Witness for C10: with a custom regex accepting exactly the string
`"definitely not an email"`, that string — rejected by the (here:
reject-everything) built-in email check — passes validation. -/
theorem email_custom_regex_replaces_witness :
    (fun t => t = "definitely not an email" : String → Bool)
        "definitely not an email" = true ∧
    emailAccepts (fun _ => false)
        (some (fun t => t = "definitely not an email"))
        "definitely not an email" = true :=
  ⟨by decide,
   (email_custom_regex_replaces (fun _ => false)
      (fun t => t = "definitely not an email")
      "definitely not an email" (by decide)).1⟩

/-- C3: the resolver validates every declared field without
short-circuiting — the aggregated failure list is exactly the in-order list
of per-field failures of all failing fields — and under `onError: "throw"`
the raised aggregated error carries that full list, never only the first
failure. -/
theorem aggregation_no_short_circuit (specs : List (String × SpecEntry))
    (env : List (String × String)) :
    (resolveAll specs env).2 = specs.filterMap (fun p =>
      match validateField env p.1 p.2 with
      | Except.error f => some f
      | Except.ok _ => none) ∧
    (∀ opts nodeEnv, opts.onError = OnErrorMode.throw →
      (resolveAll specs env).2 ≠ [] →
      zenvResolve specs env opts nodeEnv =
        ZenvResult.thrown ⟨"Environment validation failed", (resolveAll specs env).2⟩) := by
  constructor
  · induction specs with
    | nil => rfl
    | cons p rest ih =>
      obtain ⟨n, e⟩ := p
      simp only [resolveAll, List.filterMap_cons]
      cases h : validateField env n e <;> simp [h, ih]
  · intro opts nodeEnv ho hne
    simp [zenvResolve, hne, ho]

/-- Witness for C3: three malformed fields yield exactly three failure
entries, all carried by the thrown aggregated error. -/
theorem aggregation_no_short_circuit_witness :
    (resolveAll
        [("PORT", SpecEntry.schema ⟨fun _ => none, none⟩),
         ("EMAIL", SpecEntry.schema ⟨fun _ => none, none⟩),
         ("URL", SpecEntry.schema ⟨fun _ => none, none⟩)] []).2.length = 3 ∧
    zenvResolve
        [("PORT", SpecEntry.schema ⟨fun _ => none, none⟩),
         ("EMAIL", SpecEntry.schema ⟨fun _ => none, none⟩),
         ("URL", SpecEntry.schema ⟨fun _ => none, none⟩)] []
        { onError := OnErrorMode.throw } "test" =
      ZenvResult.thrown ⟨"Environment validation failed",
        [⟨"PORT", fieldFailureMessage "PORT"⟩,
         ⟨"EMAIL", fieldFailureMessage "EMAIL"⟩,
         ⟨"URL", fieldFailureMessage "URL"⟩]⟩ :=
  ⟨rfl,
   (aggregation_no_short_circuit
      [("PORT", SpecEntry.schema ⟨fun _ => none, none⟩),
       ("EMAIL", SpecEntry.schema ⟨fun _ => none, none⟩),
       ("URL", SpecEntry.schema ⟨fun _ => none, none⟩)] []).2
     { onError := OnErrorMode.throw } "test" rfl (by decide)⟩

/-- C7: a declared field mapping to a non-schema value produces the
field-level failure `Invalid validator for "<FIELD>": must be a Zod schema
instance`, which is collected into the aggregated failure list — and under
`onError: "throw"` surfaces inside the aggregated error alongside the other
field failures — rather than being thrown immediately on detection. -/
theorem invalid_spec_entry_collected (specs : List (String × SpecEntry))
    (env : List (String × String)) (name : String)
    (hmem : (name, SpecEntry.invalid) ∈ specs) :
    Failure.mk name (invalidValidatorMessage name) ∈ (resolveAll specs env).2 ∧
    (∀ opts nodeEnv, opts.onError = OnErrorMode.throw →
      zenvResolve specs env opts nodeEnv =
        ZenvResult.thrown ⟨"Environment validation failed", (resolveAll specs env).2⟩) := by
  have hin : Failure.mk name (invalidValidatorMessage name) ∈ (resolveAll specs env).2 := by
    induction specs with
    | nil => simp at hmem
    | cons p rest ih =>
      rcases List.mem_cons.mp hmem with heq | htail
      · obtain ⟨n, e⟩ := p
        obtain ⟨h1, h2⟩ := Prod.mk.injEq .. ▸ heq
        subst h1
        subst h2
        simp [resolveAll, validateField]
      · obtain ⟨n, e⟩ := p
        simp only [resolveAll]
        cases h : validateField env n e
        · exact List.mem_cons_of_mem _ (ih htail)
        · exact ih htail
  refine ⟨hin, fun opts nodeEnv ho => ?_⟩
  have hne : (resolveAll specs env).2 ≠ [] := List.ne_nil_of_mem hin
  simp [zenvResolve, hne, ho]

/-- Witness for C7: a specification with one good field and `PORT` bound to
a non-schema value collects the invalid-validator failure for `PORT` into
the aggregate and throws it. -/
theorem invalid_spec_entry_collected_witness :
    Failure.mk "PORT" (invalidValidatorMessage "PORT") ∈
      (resolveAll
        [("GOOD", SpecEntry.schema ⟨fun _ => some (JsValue.str "ok"), none⟩),
         ("PORT", SpecEntry.invalid)] []).2 ∧
    zenvResolve
        [("GOOD", SpecEntry.schema ⟨fun _ => some (JsValue.str "ok"), none⟩),
         ("PORT", SpecEntry.invalid)] []
        { onError := OnErrorMode.throw } "test" =
      ZenvResult.thrown ⟨"Environment validation failed",
        [⟨"PORT", invalidValidatorMessage "PORT"⟩]⟩ :=
  ⟨(invalid_spec_entry_collected
      [("GOOD", SpecEntry.schema ⟨fun _ => some (JsValue.str "ok"), none⟩),
       ("PORT", SpecEntry.invalid)] [] "PORT"
      (List.mem_cons_of_mem _ (List.mem_cons_self _ _))).1,
   (invalid_spec_entry_collected
      [("GOOD", SpecEntry.schema ⟨fun _ => some (JsValue.str "ok"), none⟩),
       ("PORT", SpecEntry.invalid)] [] "PORT"
      (List.mem_cons_of_mem _ (List.mem_cons_self _ _))).2
     { onError := OnErrorMode.throw } "test" rfl⟩

/-- C2: a declared, validated field whose name matches a configured
`serverOnlyPrefixes` entry reads as `undefined` from a client runtime
context under any non-throwing client-access policy, even when its client
configuration explicitly sets `expose: true` — the prefix-forced
server-only decision overrides per-field exposure. -/
theorem serverOnly_overrides_expose (cfg : Config) (key : String) (cc : ClientConfig)
    (hf1 : key ≠ "isDevelopment") (hf2 : key ≠ "isDev")
    (hf3 : key ≠ "isProduction") (hf4 : key ≠ "isProd") (hf5 : key ≠ "isTest")
    (hdecl : (lookupVal cfg.values key).isSome = true)
    (hforced : cfg.opts.serverOnlyPrefixes.any (fun p => strStartsWith key p) = true)
    (hmeta : lookupMeta cfg.meta key = some (some cc))
    (hexpose : cc.expose = true)
    (hpolicy : cfg.opts.onClientAccessError ≠ ClientAccessMode.throw) :
    proxyGet cfg true key = ReadResult.val JsValue.undef := by
  obtain ⟨v, hv⟩ := Option.isSome_iff_exists.mp hdecl
  have hexp : isExposed cfg.opts key ((lookupMeta cfg.meta key).getD none) = false := by
    simp [isExposed, hforced]
  cases hp : cfg.opts.onClientAccessError with
  | throw => exact absurd hp hpolicy
  | warn => simp [proxyGet, hf1, hf2, hf3, hf4, hf5, hv, hexp, hp]
  | ignore => simp [proxyGet, hf1, hf2, hf3, hf4, hf5, hv, hexp, hp]

/-- Witness for C2: `DB_PASSWORD` with explicit `client: {expose: true}`
under `serverOnlyPrefixes: ["DB_"]` reads as `undefined` from the client. -/
theorem serverOnly_overrides_expose_witness :
    proxyGet
      { values := [("DB_PASSWORD", JsValue.str "secret")],
        meta := [("DB_PASSWORD", some { expose := true })],
        opts := { onError := OnErrorMode.throw, serverOnlyPrefixes := ["DB_"] },
        nodeEnv := "test" } true "DB_PASSWORD" = ReadResult.val JsValue.undef :=
  serverOnly_overrides_expose
    { values := [("DB_PASSWORD", JsValue.str "secret")],
      meta := [("DB_PASSWORD", some { expose := true })],
      opts := { onError := OnErrorMode.throw, serverOnlyPrefixes := ["DB_"] },
      nodeEnv := "test" } "DB_PASSWORD" { expose := true }
    (by decide) (by decide) (by decide) (by decide) (by decide)
    rfl (by decide) rfl rfl (by decide)

/-- C6: every property assignment through the proxy, to any key whether
declared or not, fails with the type error naming the field; no assignment
ever produces an updated configuration, so no stored value changes and no
key is added. -/
theorem mutation_always_rejected (cfg : Config) (key : String) (v : JsValue) :
    proxySet cfg key v =
      Except.error ("[zenv] Attempt to mutate environment value: " ++ key) ∧
    (∀ cfg2, proxySet cfg key v ≠ Except.ok cfg2) :=
  ⟨rfl, fun _ h => by simp [proxySet] at h⟩

/-- Witness for C6: assigning the undeclared key `NEW_VAR` on a concrete
resolved configuration fails with the type error naming it. -/
theorem mutation_always_rejected_witness :
    proxySet
        { values := [("NODE_ENV", JsValue.str "test")],
          meta := [("NODE_ENV", none)], opts := {}, nodeEnv := "test" }
        "NEW_VAR" (JsValue.str "value") =
      Except.error "[zenv] Attempt to mutate environment value: NEW_VAR" :=
  (mutation_always_rejected
    { values := [("NODE_ENV", JsValue.str "test")],
      meta := [("NODE_ENV", none)], opts := {}, nodeEnv := "test" }
    "NEW_VAR" (JsValue.str "value")).1

/-- C9: deleting any key through the proxy reports success without
throwing, and every subsequent read of every key on the resulting
configuration returns exactly what it returned before the deletion. -/
theorem delete_reports_success_no_effect (cfg : Config) (key : String) :
    (proxyDelete cfg key).1 = true ∧
    (∀ isClient k, proxyGet (proxyDelete cfg key).2 isClient k =
      proxyGet cfg isClient k) :=
  ⟨rfl, fun _ _ => rfl⟩

/-- Witness for C9: deleting the declared key `NODE_ENV` on a concrete
configuration reports success and a server read of it is unchanged. -/
theorem delete_reports_success_no_effect_witness :
    (proxyDelete
        { values := [("NODE_ENV", JsValue.str "test")],
          meta := [("NODE_ENV", none)], opts := {}, nodeEnv := "test" }
        "NODE_ENV").1 = true ∧
    proxyGet
        (proxyDelete
          { values := [("NODE_ENV", JsValue.str "test")],
            meta := [("NODE_ENV", none)], opts := {}, nodeEnv := "test" }
          "NODE_ENV").2 false "NODE_ENV" =
      proxyGet
        { values := [("NODE_ENV", JsValue.str "test")],
          meta := [("NODE_ENV", none)], opts := {}, nodeEnv := "test" }
        false "NODE_ENV" :=
  ⟨(delete_reports_success_no_effect
      { values := [("NODE_ENV", JsValue.str "test")],
        meta := [("NODE_ENV", none)], opts := {}, nodeEnv := "test" }
      "NODE_ENV").1,
   (delete_reports_success_no_effect
      { values := [("NODE_ENV", JsValue.str "test")],
        meta := [("NODE_ENV", none)], opts := {}, nodeEnv := "test" }
      "NODE_ENV").2 false "NODE_ENV"⟩

end Zenvalidate
